import Mathlib

/-!
Verification development for the GitHub webhook routing core of the
mattermost-plugin-github repository.

The Go sources are embedded shallowly:
  * pure string helpers (`strings.Contains`, `strings.HasPrefix`,
    `strings.Split`, `strings.ToLower`) are re-implemented over `List Char`;
  * external capabilities (the KV store, the GitHub client, template
    rendering, the Mattermost message sink) are abstracted into an `Env`
    record of functions; a call that dispatches a channel post or a direct
    message is recorded as a `Msg` value in the returned list;
  * fallible external reads are `Option`-valued (`none` models a Go error).

Each claim theorem is stated near the end of the file.
-/

/-- Prefix test over lists, embedding Go `strings.HasPrefix` semantics
(character-wise comparison). -/
def listIsPre [BEq α] : List α → List α → Bool
  | [], _ => true
  | _ :: _, [] => false
  | a :: as, b :: bs => a == b && listIsPre as bs

/-- Substring occurrence test: `listHasSub s sub` embeds Go
`strings.Contains(s, sub)` — `sub` occurs contiguously inside `s`. -/
def listHasSub [BEq α] : List α → List α → Bool
  | [], sub => listIsPre sub []
  | a :: rest, sub => listIsPre sub (a :: rest) || listHasSub rest sub

/-- Go `strings.Contains(s, substr)`. -/
def goContains (s sub : String) : Bool :=
  listHasSub s.data sub.data

/-- Go `strings.ToLower` (ASCII case folding; the repository only compares
repository names, which are ASCII). -/
def goToLower (s : String) : String :=
  String.mk (s.data.map Char.toLower)

/-- Split a character list on a separator character; like Go
`strings.Split`, the result always has one more component than there are
separators (so the empty input yields one empty component). -/
def splitOnChar (c : Char) : List Char → List (List Char)
  | [] => [[]]
  | a :: rest =>
    let r := splitOnChar c rest
    if a == c then [] :: r
    else
      match r with
      | [] => [[a]]
      | h :: t => (a :: h) :: t

/-- Go `strings.Split(s, sep)` for a one-character separator. -/
def goSplit (s : String) (c : Char) : List String :=
  (splitOnChar c s.data).map String.mk

/-- First component of Go `strings.Split(s, sep)` for a multi-character
separator: everything before the first occurrence of `sep`. -/
def cutBefore : List Char → List Char → List Char
  | [], _ => []
  | c :: rest, sep => if listIsPre sep (c :: rest) then [] else c :: cutBefore rest sep

/-- Flags carried by a subscription (`SubscriptionFlags` in the source). -/
structure SubscriptionFlags where
  excludeOrgMembers : Bool
  excludeOrgRepos : Bool
deriving DecidableEq

/-- A channel subscription (`Subscription` in the source). -/
structure Subscription where
  channelID : String
  creatorID : String
  features : String
  flags : SubscriptionFlags
  repository : String
deriving DecidableEq

def featurePulls : String := "pulls"

def featureIssues : String := "issues"

def featureStars : String := "stars"

/-- Embeds `Subscription.Pulls`: substring test on the comma-joined feature string. -/
def Subscription.Pulls (s : Subscription) : Bool :=
  goContains s.features featurePulls

/-- Embeds `Subscription.PullsMerged`. -/
def Subscription.PullsMerged (s : Subscription) : Bool :=
  goContains s.features "pulls_merged"

/-- Embeds `Subscription.IssueCreations`. -/
def Subscription.IssueCreations (s : Subscription) : Bool :=
  goContains s.features "issue_creations"

/-- Embeds `Subscription.Issues`. -/
def Subscription.Issues (s : Subscription) : Bool :=
  goContains s.features featureIssues

/-- Embeds `Subscription.Pushes`. -/
def Subscription.Pushes (s : Subscription) : Bool :=
  goContains s.features "pushes"

/-- Embeds `Subscription.Creates`. -/
def Subscription.Creates (s : Subscription) : Bool :=
  goContains s.features "creates"

/-- Embeds `Subscription.Deletes`. -/
def Subscription.Deletes (s : Subscription) : Bool :=
  goContains s.features "deletes"

/-- Embeds `Subscription.IssueComments`. -/
def Subscription.IssueComments (s : Subscription) : Bool :=
  goContains s.features "issue_comments"

/-- Embeds `Subscription.PullReviews`. -/
def Subscription.PullReviews (s : Subscription) : Bool :=
  goContains s.features "pull_reviews"

/-- Embeds `Subscription.Stars`. -/
def Subscription.Stars (s : Subscription) : Bool :=
  goContains s.features featureStars

/-- Embeds `Subscription.Label`: the label filter parsed from the feature string,
or the empty string when no label filter is set. -/
def Subscription.Label (s : Subscription) : String :=
  if !goContains s.features "label:" then ""
  else
    let labelSplit := goSplit s.features '"'
    if labelSplit.length < 3 then ""
    else labelSplit.getD 1 ""

/-- Embeds `Subscription.ExcludeOrgMembers`. -/
def Subscription.ExcludeOrgMembers (s : Subscription) : Bool :=
  s.flags.excludeOrgMembers

/-- The subscription store: the repository/organization key to subscription
list mapping held by the `Subscriptions` JSON document.  A key that was
never written maps to the empty list, matching the Go `nil` slice returned
by a map lookup miss (the `AddSubscription` and `Unsubscribe` code treats a
`nil` slice and an empty slice identically). -/
def Subscriptions := String → List Subscription

/-- The body of the `AddSubscription` loop: replace the first entry whose
`ChannelID` matches (the Go loop breaks after the replacement), otherwise
append; an absent key yields the singleton list. -/
def replaceOrAppend : List Subscription → Subscription → List Subscription
  | [], sub => [sub]
  | s :: rest, sub =>
    if s.channelID == sub.channelID then sub :: rest
    else s :: replaceOrAppend rest sub

/-- Embeds `AddSubscription` (the pure store update; a KV read/write failure in Go
returns an error and leaves the stored document unchanged). -/
def AddSubscription (subs : Subscriptions) (repo : String) (sub : Subscription) : Subscriptions :=
  fun k => if k = repo then replaceOrAppend (subs k) sub else subs k

/-- Modelled from the spec: `fullNameFromOwnerAndRepo` is not among the
provided sources.  Per the spec the repository key is the lower-cased
`owner/repo`, `owner/` for an organization-wide subscription, so the
helper joins the two segments with a slash. -/
def fullNameFromOwnerAndRepo (owner repo : String) : String :=
  owner ++ "/" ++ repo

/-- A GitHub repository as seen by the webhook handlers (`FullName`,
`Private`). -/
structure Repo where
  fullName : String
  isPrivate : Bool
deriving DecidableEq

/-- A GitHub user (`Login`). -/
structure User where
  login : String
deriving DecidableEq

/-- A dispatched Mattermost post: either a channel post created through
`p.API.CreatePost`, or a direct message to a user (a post in the direct
channel of that user with the bot, or a `CreateBotDMPost` call). -/
inductive Msg where
  | channel (channelID : String) (postType : String) (message : String)
  | dm (userID : String) (postType : String) (message : String)
deriving DecidableEq

/-- The external world the plugin talks to.  Fields are the results of the
effectful calls made by the routing core; `none` models a Go error return.

`organizationLocked` — modelled from the spec: `isOrganizationLocked` is not
among the provided sources; the spec describes it as "the installation
being locked to a single organization", a configuration-time predicate.

`parseUsernames` — modelled from the spec: `parseGitHubUsernamesFromText`
is not among the provided sources; the spec describes it as the scan of a
text for `@username` tokens.

`ghToUserID` — modelled from the spec: `getGitHubToUserIDMapping` is not
among the provided sources; the spec describes it as the username to
internal chat identity mapping, with the empty string for an unknown
username. -/
structure Env where
  /-- Embeds `config.EnablePrivateRepo`. -/
  enablePrivateRepo : Bool
  /-- Embeds `GetExcludedNotificationRepos()`: the notification-disabled repository
  list; `none` is a KV read or decode error. -/
  excludedRepos : Option (List String)
  /-- Embeds `GetSubscriptions()`: the stored subscription document; `none` is a KV
  read or decode error. -/
  subsStore : Option Subscriptions
  /-- Result of `p.permissionToRepo(userID, ownerAndRepo)`: the permission
  oracle (a live repository fetch with the credential of that user;
  fail-closed). -/
  perm : String → String → Bool
  /-- Username to Mattermost user id; `""` when unknown. -/
  ghToUserID : String → String
  /-- Embeds `p.API.KVGet(userID + "-muted-users")`: `none` models both an error
  and an absent key (a `nil` byte slice converts to the empty string). -/
  kvMuted : String → Option String
  /-- Embeds `renderTemplate(name, event)`: `none` is a rendering error. -/
  render : String → Option String
  /-- Embeds `p.sanitizeDescription` (the bluemonday policy applied to a string). -/
  sanitize : String → String
  /-- Embeds `p.API.GetDirectChannel(userID, botUserID)`: the direct-channel id, or
  `none` on error. -/
  getDirectChannel : String → Option String
  /-- Embeds `parseGitHubUsernamesFromText`. -/
  parseUsernames : String → List String
  /-- Embeds `p.getGitHubUserInfo(creatorID)` succeeded. -/
  userInfoOk : String → Bool
  /-- Embeds `p.isUserOrganizationMember(client(creator), user, config.GitHubOrg)`:
  queried with the credential of the subscription creator and the sender
  login. -/
  isOrgMember : String → String → Bool
  /-- Embeds `p.isOrganizationLocked()`. -/
  organizationLocked : Bool
  /-- Embeds `p.checkOrg(owner)` succeeded. -/
  checkOrg : String → Bool
  /-- Embeds `githubClient.Organizations.Get(owner)`: (result non-nil, err non-nil). -/
  orgGet : String → Bool × Bool
  /-- Embeds `githubClient.Users.Get(owner)`: (result non-nil, err non-nil). -/
  userGet : String → Bool × Bool
  /-- Embeds `githubClient.Repositories.Get(owner, repo)`: (result non-nil, err non-nil). -/
  repoGet : String → String → Bool × Bool
  /-- The wall-clock instant the event is processed, in nanoseconds (used by
  the `time.Until(createdAt) * -1` age computation). -/
  now : Int

/-- Modelled from the spec: `ItemExists` is not among the provided sources.
The spec describes the notification-disabled list as "a set of repository
full names"; membership is exact string equality, matching the analogous
`contains` and `findInSlice` helpers that are among the sources. -/
def ItemExists : List String → String → Bool × Nat
  | [], _ => (false, 0)
  | a :: rest, x =>
    if a == x then (true, 0)
    else
      let r := ItemExists rest x
      (r.1, r.2 + 1)

/-- Embeds `p.IsNotificationOff(repoName)`: the kill-switch lookup.  An error
reading the list degrades to `false`. -/
def IsNotificationOff (env : Env) (repoName : String) : Bool :=
  match env.excludedRepos with
  | none => false
  | some repos =>
    if repos.length = 0 then false
    else (ItemExists repos repoName).1

/-- Embeds `p.senderMutedByReceiver(userID, sender)`: the KV error is discarded, a
`nil` byte slice becomes the empty string, and the test is
`strings.Contains` on the comma-joined mute string. -/
def senderMutedByReceiver (env : Env) (userID sender : String) : Bool :=
  let mutedUsernames := (env.kvMuted userID).getD ""
  goContains mutedUsernames sender

/-- Embeds `p.getMutedUsernames(userInfo)`: split the stored comma-joined string;
an error or an empty value yields the empty list. -/
def getMutedUsernames (stored : Option String) : List String :=
  match stored with
  | none => []
  | some mutedUsernames =>
    if mutedUsernames.length = 0 then []
    else goSplit mutedUsernames ','

/-- Embeds `p.handleMuteAdd`: the new stored mute string, or `none` when nothing
is written (already muted, or the username contains a comma). -/
def handleMuteAdd (stored : Option String) (username : String) : Option String :=
  let mutedUsernames := getMutedUsernames stored
  if (mutedUsernames.contains username) then none
  else if goContains username "," then none
  else if mutedUsernames.length > 0 then
    some (String.intercalate "," mutedUsernames ++ "," ++ username)
  else some username

/-- The bytes of the literal header prefix `sha1=`. -/
def signaturePrefixBytes : List Nat := [115, 104, 97, 49, 61]

/-- Go `encoding/hex` digit value (`fromHexChar`). -/
def goFromHexChar (b : Nat) : Option Nat :=
  if 48 ≤ b && b ≤ 57 then some (b - 48)
  else if 97 ≤ b && b ≤ 102 then some (b - 97 + 10)
  else if 65 ≤ b && b ≤ 70 then some (b - 65 + 10)
  else none

/-- Go `hex.Decode`: consume digit pairs; any invalid digit (or a trailing
odd byte) is an error. -/
def hexDecodePairs : List Nat → Option (List Nat)
  | [] => some []
  | [_] => none
  | a :: b :: rest =>
    match goFromHexChar a, goFromHexChar b with
    | some hi, some lo => (hexDecodePairs rest).map (fun t => (hi * 16 + lo) :: t)
    | _, _ => none

/-- Embeds `verifyWebhookSignature(secret, signature, body)`.  The HMAC-SHA1
keyed hash (`signBody`) is a parameter `hmacSha1`; the Go `hash.Write`
never returns an error, so `signBody` is total.  `hmac.Equal` is digest
equality (its constant-time execution is not observable here).  The result
models the Go `(bool, error)` pair as `Except Unit Bool`. -/
def verifyWebhookSignature (hmacSha1 : List Nat → List Nat → List Nat)
    (secret : List Nat) (signature : List Nat) (body : List Nat) :
    Except Unit Bool :=
  if !(signature.length == 45 && listIsPre signaturePrefixBytes signature) then
    .ok false
  else
    match hexDecodePairs (signature.drop 5) with
    | none => .error ()
    | some actual => .ok (hmacSha1 secret body == actual)

/-- Embeds `p.excludeConfigOrgMember(user, subscription)`: `false` unless the flag
is set; a failure fetching the credential of the creator degrades to `false`;
otherwise the live organization-membership lookup. -/
def excludeConfigOrgMember (env : Env) (user : User) (sub : Subscription) : Bool :=
  if !sub.ExcludeOrgMembers then false
  else if !env.userInfoOk sub.creatorID then false
  else env.isOrgMember sub.creatorID user.login

/-- Embeds `p.GetSubscribedChannelsForRepository(repo)`: lower-case the full name,
concatenate the repo-level and organization-level subscription lists, and
for a private repository keep only subscriptions whose creator passes the
permission oracle.  A store read error returns the empty list. -/
def GetSubscribedChannelsForRepository (env : Env) (repo : Repo) : List Subscription :=
  let name := goToLower repo.fullName
  let org := (goSplit name '/').headD ""
  match env.subsStore with
  | none => []
  | some subs =>
    let subsForRepo := subs name ++ subs (fullNameFromOwnerAndRepo org "")
    if subsForRepo.isEmpty then []
    else
      subsForRepo.filter (fun sub => !(repo.isPrivate && !env.perm sub.creatorID name))

def actionOpened : String := "opened"

def actionClosed : String := "closed"

def actionReopened : String := "reopened"

def actionSubmitted : String := "submitted"

def actionLabeled : String := "labeled"

def actionAssigned : String := "assigned"

def actionCreated : String := "created"

def actionDeleted : String := "deleted"

def actionEdited : String := "edited"

/-- Issue payload: author, current label names, assignees, creation time in
nanoseconds, HTML URL. -/
structure IssueData where
  user : User
  labels : List String
  assignees : List User
  createdAt : Int
  htmlURL : String
deriving DecidableEq

/-- Pull-request payload: author, current label names, description body,
assignee. -/
structure PullRequestData where
  user : User
  labels : List String
  body : String
  assignee : User
deriving DecidableEq

/-- Embeds `github.PullRequestEvent`: `label` is the name of the label the
event itself applies (`event.GetLabel().GetName()`, empty when absent). -/
structure PullRequestEvent where
  action : String
  repo : Repo
  sender : User
  pullRequest : PullRequestData
  label : String
  requestedReviewer : User
deriving DecidableEq

/-- Embeds `github.IssuesEvent`: `assignee` is the event-level assignee. -/
structure IssuesEvent where
  action : String
  repo : Repo
  sender : User
  issue : IssueData
  label : String
  assignee : User
deriving DecidableEq

/-- Embeds `github.IssueCommentEvent`. -/
structure IssueCommentEvent where
  action : String
  repo : Repo
  sender : User
  issue : IssueData
  commentBody : String
deriving DecidableEq

/-- Embeds `github.PullRequestReviewEvent`. -/
structure PullRequestReviewEvent where
  action : String
  repo : Repo
  sender : User
  pullRequest : PullRequestData
  reviewState : String
deriving DecidableEq

/-- Embeds `github.PullRequestReviewCommentEvent`. -/
structure PullRequestReviewCommentEvent where
  repo : Repo
  sender : User
  pullRequest : PullRequestData
deriving DecidableEq

/-- Embeds `github.PushEventRepository` (full name and visibility only; these are
the two fields read by the webhook path). -/
structure PushEventRepository where
  fullName : String
  isPrivate : Bool
deriving DecidableEq

/-- Embeds `github.PushEvent`: only the commit count matters for routing. -/
structure PushEvent where
  repo : PushEventRepository
  sender : User
  commitsCount : Nat
deriving DecidableEq

/-- Embeds `github.CreateEvent`. -/
structure CreateEvent where
  repo : Repo
  sender : User
  refType : String
deriving DecidableEq

/-- Embeds `github.DeleteEvent`. -/
structure DeleteEvent where
  repo : Repo
  sender : User
  refType : String
deriving DecidableEq

/-- Embeds `github.StarEvent`. -/
structure StarEvent where
  repo : Repo
  sender : User
deriving DecidableEq

/-- The nine webhook event kinds dispatched by `handleWebhook`. -/
inductive Event where
  | pullRequest (e : PullRequestEvent)
  | issues (e : IssuesEvent)
  | issueComment (e : IssueCommentEvent)
  | pullRequestReview (e : PullRequestReviewEvent)
  | pullRequestReviewComment (e : PullRequestReviewCommentEvent)
  | push (e : PushEvent)
  | create (e : CreateEvent)
  | delete (e : DeleteEvent)
  | star (e : StarEvent)
deriving DecidableEq

/-- Embeds `ConvertPushEventRepositoryToRepository`. -/
def ConvertPushEventRepositoryToRepository (pushRepo : PushEventRepository) : Repo :=
  { fullName := pushRepo.fullName, isPrivate := pushRepo.isPrivate }

/-- One step of a subscription fan-out loop iteration: skip the
subscription, send a post, or abort the remainder of the loop (a Go
`return` out of the loop body after a template error). -/
inductive IterStep where
  | skip
  | send (m : Msg)
  | abort
deriving DecidableEq

/-- Run a fan-out loop: `send` emits and continues, `skip` continues,
`abort` drops the remaining subscriptions (posts already created stay). -/
def runIter (step : Subscription → IterStep) : List Subscription → List Msg
  | [] => []
  | sub :: rest =>
    match step sub with
    | .skip => runIter step rest
    | .send m => m :: runIter step rest
    | .abort => []

/-- The `postPullRequestEvent` loop body for one subscription.  The
`pullRequestLabelled` template is rendered inside the loop; its failure
aborts the whole fan-out.  The final message assignment mirrors the Go
`post.Message` writes; the loop is only reached for the opened / labeled /
closed actions. -/
def prIter (env : Env) (ev : PullRequestEvent) (labels : List String)
    (newPR closedPR : String) (sub : Subscription) : IterStep :=
  if !sub.Pulls && !sub.PullsMerged then .skip
  else if sub.PullsMerged && !(ev.action == actionClosed) then .skip
  else if excludeConfigOrgMember env ev.sender sub then .skip
  else
    let label := sub.Label
    let contained := labels.contains label
    if !contained && !(label == "") then .skip
    else if ev.action == actionLabeled then
      if !(label == "") && label == ev.label then
        match env.render "pullRequestLabelled" with
        | none => .abort
        | some m => .send (.channel sub.channelID "custom_git_pr" m)
      else .skip
    else
      let msg :=
        if ev.action == actionOpened then env.sanitize newPR
        else if ev.action == actionClosed then closedPR
        else ""
      .send (.channel sub.channelID "custom_git_pr" msg)

/-- Embeds `p.postPullRequestEvent`. -/
def postPullRequestEvent (env : Env) (ev : PullRequestEvent) : List Msg :=
  let subs := GetSubscribedChannelsForRepository env ev.repo
  if subs.isEmpty then []
  else if !(ev.action == actionOpened) && !(ev.action == actionLabeled)
      && !(ev.action == actionClosed) then []
  else
    let labels := ev.pullRequest.labels
    match env.render "newPR" with
    | none => []
    | some newPR =>
      match env.render "closedPR" with
      | none => []
      | some closedPR => runIter (prIter env ev labels newPR closedPR) subs

/-- The `postIssueEvent` loop body for one subscription. -/
def issueIter (env : Env) (ev : IssuesEvent) (message : String)
    (labels : List String) (sub : Subscription) : IterStep :=
  if !sub.Issues && !sub.IssueCreations then .skip
  else if sub.IssueCreations && !(ev.action == actionOpened) then .skip
  else if excludeConfigOrgMember env ev.sender sub then .skip
  else
    let label := sub.Label
    let contained := labels.contains label
    if !contained && !(label == "") then .skip
    else if ev.action == actionLabeled && (label == "" || !(label == ev.label)) then .skip
    else .send (.channel sub.channelID "custom_git_issue" message)

/-- Embeds `p.postIssueEvent`.  The anti-duplication guard compares the issue age
`time.Until(createdAt) * -1` (i.e. `now - createdAt`) against 4 seconds;
times are integer nanoseconds. -/
def postIssueEvent (env : Env) (ev : IssuesEvent) : List Msg :=
  if ev.action == actionLabeled && env.now - ev.issue.createdAt < 4000000000 then []
  else
    let subs := GetSubscribedChannelsForRepository env ev.repo
    if subs.isEmpty then []
    else
      let issueTemplate :=
        if ev.action == actionOpened then some "newIssue"
        else if ev.action == actionClosed then some "closedIssue"
        else if ev.action == actionReopened then some "reopenedIssue"
        else if ev.action == actionLabeled then some "issueLabelled"
        else none
      match issueTemplate with
      | none => []
      | some t =>
        match env.render t with
        | none => []
        | some rendered =>
          runIter (issueIter env ev (env.sanitize rendered) ev.issue.labels) subs

/-- Embeds `p.postPushEvent`. -/
def postPushEvent (env : Env) (ev : PushEvent) : List Msg :=
  let subs := GetSubscribedChannelsForRepository env
    (ConvertPushEventRepositoryToRepository ev.repo)
  if subs.isEmpty then []
  else if ev.commitsCount == 0 then []
  else
    match env.render "pushedCommits" with
    | none => []
    | some message =>
      runIter (fun sub =>
        if !sub.Pushes then .skip
        else if excludeConfigOrgMember env ev.sender sub then .skip
        else .send (.channel sub.channelID "custom_git_push" message)) subs

/-- Embeds `p.postCreateEvent`. -/
def postCreateEvent (env : Env) (ev : CreateEvent) : List Msg :=
  let subs := GetSubscribedChannelsForRepository env ev.repo
  if subs.isEmpty then []
  else if !(ev.refType == "tag") && !(ev.refType == "branch") then []
  else
    match env.render "newCreateMessage" with
    | none => []
    | some message =>
      runIter (fun sub =>
        if !sub.Creates then .skip
        else if excludeConfigOrgMember env ev.sender sub then .skip
        else .send (.channel sub.channelID "custom_git_create" message)) subs

/-- Embeds `p.postDeleteEvent`. -/
def postDeleteEvent (env : Env) (ev : DeleteEvent) : List Msg :=
  let subs := GetSubscribedChannelsForRepository env ev.repo
  if subs.isEmpty then []
  else if !(ev.refType == "tag") && !(ev.refType == "branch") then []
  else
    match env.render "newDeleteMessage" with
    | none => []
    | some message =>
      runIter (fun sub =>
        if !sub.Deletes then .skip
        else if excludeConfigOrgMember env ev.sender sub then .skip
        else .send (.channel sub.channelID "custom_git_delete" message)) subs

/-- Embeds `p.postIssueCommentEvent`. -/
def postIssueCommentEvent (env : Env) (ev : IssueCommentEvent) : List Msg :=
  let subs := GetSubscribedChannelsForRepository env ev.repo
  if subs.isEmpty then []
  else if !(ev.action == actionCreated) then []
  else
    match env.render "issueComment" with
    | none => []
    | some message =>
      let labels := ev.issue.labels
      runIter (fun sub =>
        if !sub.IssueComments then .skip
        else if excludeConfigOrgMember env ev.sender sub then .skip
        else
          let label := sub.Label
          let contained := labels.contains label
          if !contained && !(label == "") then .skip
          else
            .send (.channel sub.channelID "custom_git_comment"
              (if ev.action == actionCreated then message else ""))) subs

/-- Embeds `p.postPullRequestReviewEvent`. -/
def postPullRequestReviewEvent (env : Env) (ev : PullRequestReviewEvent) : List Msg :=
  let subs := GetSubscribedChannelsForRepository env ev.repo
  if subs.isEmpty then []
  else if !(ev.action == actionSubmitted) then []
  else if !(ev.reviewState == "APPROVED") && !(ev.reviewState == "COMMENTED")
      && !(ev.reviewState == "CHANGES_REQUESTED") then []
  else
    match env.render "pullRequestReviewEvent" with
    | none => []
    | some message =>
      let labels := ev.pullRequest.labels
      runIter (fun sub =>
        if !sub.PullReviews then .skip
        else if excludeConfigOrgMember env ev.sender sub then .skip
        else
          let label := sub.Label
          let contained := labels.contains label
          if !contained && !(label == "") then .skip
          else .send (.channel sub.channelID "custom_git_pull_review" message)) subs

/-- Embeds `p.postPullRequestReviewCommentEvent`. -/
def postPullRequestReviewCommentEvent (env : Env) (ev : PullRequestReviewCommentEvent) : List Msg :=
  let subs := GetSubscribedChannelsForRepository env ev.repo
  if subs.isEmpty then []
  else
    match env.render "newReviewComment" with
    | none => []
    | some message =>
      let labels := ev.pullRequest.labels
      runIter (fun sub =>
        if !sub.PullReviews then .skip
        else if excludeConfigOrgMember env ev.sender sub then .skip
        else
          let label := sub.Label
          let contained := labels.contains label
          if !contained && !(label == "") then .skip
          else .send (.channel sub.channelID "custom_git_pull_review_comment" message)) subs

/-- Embeds `p.postStarEvent`. -/
def postStarEvent (env : Env) (ev : StarEvent) : List Msg :=
  let subs := GetSubscribedChannelsForRepository env ev.repo
  if subs.isEmpty then []
  else
    match env.render "newRepoStar" with
    | none => []
    | some message =>
      runIter (fun sub =>
        if !sub.Stars then .skip
        else if excludeConfigOrgMember env ev.sender sub then .skip
        else .send (.channel sub.channelID "custom_git_star" message)) subs

/-- The `handleCommentMentionNotification` loop body: one direct message
per surviving mentioned username (the Go code posts into the direct
channel the mention target shares with the bot). -/
def mentionIter (env : Env) (ev : IssueCommentEvent) (message : String)
    (username : String) : Option Msg :=
  if username == ev.sender.login then none
  else if username == ev.issue.user.login then none
  else
    let userID := env.ghToUserID username
    if userID == "" then none
    else if ev.repo.isPrivate && !env.perm userID ev.repo.fullName then none
    else
      match env.getDirectChannel userID with
      | none => none
      | some _ => some (.dm userID "custom_git_mention" message)

/-- Embeds `p.handleCommentMentionNotification`: note that no mute-list check
appears anywhere on this path. -/
def handleCommentMentionNotification (env : Env) (ev : IssueCommentEvent) : List Msg :=
  if ev.action == actionEdited || ev.action == actionDeleted then []
  else
    let body :=
      if goContains ev.commentBody "notifications@github.com" then
        String.mk (cutBefore ev.commentBody.data "\n\nOn".data)
      else ev.commentBody
    let mentionedUsernames := env.parseUsernames body
    match env.render "commentMentionNotification" with
    | none => []
    | some message => mentionedUsernames.filterMap (mentionIter env ev message)

/-- Embeds `p.handleCommentAuthorNotification`: the only comment path that applies
the mute-list check to the issue author. -/
def handleCommentAuthorNotification (env : Env) (ev : IssueCommentEvent) : List Msg :=
  let author := ev.issue.user.login
  if author == ev.sender.login then []
  else if ev.action == actionEdited || ev.action == actionDeleted then []
  else
    let authorUserID := env.ghToUserID author
    if authorUserID == "" then []
    else if ev.repo.isPrivate && !env.perm authorUserID ev.repo.fullName then []
    else
      let splitURL := goSplit ev.issue.htmlURL '/'
      if splitURL.length < 2 then []
      else
        let kind := splitURL.getD (splitURL.length - 2) ""
        let templateName :=
          if kind == "pull" then some "commentAuthorPullRequestNotification"
          else if kind == "issues" then some "commentAuthorIssueNotification"
          else none
        match templateName with
        | none => []
        | some t =>
          if senderMutedByReceiver env authorUserID ev.sender.login then []
          else
            match env.render t with
            | none => []
            | some message => [.dm authorUserID "custom_git_author" message]

/-- The `handleCommentAssigneeNotification` loop body for one assignee;
the permission oracle is consulted unconditionally here, and the mute list
is applied to the assignee. -/
def assigneeIter (env : Env) (ev : IssueCommentEvent) (templateName : String)
    (assignee : User) : Option Msg :=
  let userID := env.ghToUserID assignee.login
  if userID == "" then none
  else if ev.issue.user.login == assignee.login then none
  else if ev.sender.login == assignee.login then none
  else if !env.perm userID ev.repo.fullName then none
  else
    let assigneeID := env.ghToUserID assignee.login
    if assigneeID == "" then none
    else if senderMutedByReceiver env assigneeID ev.sender.login then none
    else
      match env.render templateName with
      | none => none
      | some message => some (.dm assigneeID "custom_git_assignee" message)

/-- Embeds `p.handleCommentAssigneeNotification`. -/
def handleCommentAssigneeNotification (env : Env) (ev : IssueCommentEvent) : List Msg :=
  let splitURL := goSplit ev.issue.htmlURL '/'
  if splitURL.length < 2 then []
  else
    let kind := splitURL.getD (splitURL.length - 2) ""
    let templateName :=
      if kind == "pull" then some "commentAssigneePullRequestNotification"
      else if kind == "issues" then some "commentAssigneeIssueNotification"
      else none
    match templateName with
    | none => []
    | some t => ev.issue.assignees.filterMap (assigneeIter env ev t)

/-- The `handlePRDescriptionMentionNotification` loop body. -/
def prMentionIter (env : Env) (ev : PullRequestEvent) (message : String)
    (username : String) : Option Msg :=
  if username == ev.sender.login then none
  else if username == ev.pullRequest.user.login then none
  else
    let userID := env.ghToUserID username
    if userID == "" then none
    else if ev.repo.isPrivate && !env.perm userID ev.repo.fullName then none
    else
      match env.getDirectChannel userID with
      | none => none
      | some _ => some (.dm userID "custom_git_mention" message)

/-- Embeds `p.handlePRDescriptionMentionNotification`. -/
def handlePRDescriptionMentionNotification (env : Env) (ev : PullRequestEvent) : List Msg :=
  if !(ev.action == actionOpened) then []
  else
    let mentionedUsernames := env.parseUsernames ev.pullRequest.body
    match env.render "pullRequestMentionNotification" with
    | none => []
    | some message => mentionedUsernames.filterMap (prMentionIter env ev message)

/-- Embeds `p.postIssueNotification`: one bot DM per non-empty resolved user id. -/
def postIssueNotification (message authorUserID assigneeUserID : String) : List Msg :=
  (if authorUserID.length > 0 then [Msg.dm authorUserID "custom_git_author" message] else [])
  ++ (if assigneeUserID.length > 0 then [Msg.dm assigneeUserID "custom_git_assigned" message] else [])

/-- Embeds `p.handlePullRequestNotification`: resolves at most one of
requested-reviewer / author / assignee depending on the action, with the
sender-is-self and private-repository permission exclusions.  No mute-list
check appears anywhere on this path. -/
def handlePullRequestNotification (env : Env) (ev : PullRequestEvent) : List Msg :=
  let author := ev.pullRequest.user.login
  let sender := ev.sender.login
  let repoName := ev.repo.fullName
  let isPrivate := ev.repo.isPrivate
  let resolved : Option (String × String × String) :=
    if ev.action == "review_requested" then
      let requestedReviewer := ev.requestedReviewer.login
      if requestedReviewer == sender then none
      else
        let requestedUserID := env.ghToUserID requestedReviewer
        let requestedUserID :=
          if isPrivate && !env.perm requestedUserID repoName then "" else requestedUserID
        some (requestedUserID, "", "")
    else if ev.action == actionClosed then
      if author == sender then none
      else
        let authorUserID := env.ghToUserID author
        let authorUserID :=
          if isPrivate && !env.perm authorUserID repoName then "" else authorUserID
        some ("", authorUserID, "")
    else if ev.action == actionReopened then
      if author == sender then none
      else
        let authorUserID := env.ghToUserID author
        let authorUserID :=
          if isPrivate && !env.perm authorUserID repoName then "" else authorUserID
        some ("", authorUserID, "")
    else if ev.action == actionAssigned then
      let assignee := ev.pullRequest.assignee.login
      if assignee == sender then none
      else
        let assigneeUserID := env.ghToUserID assignee
        let assigneeUserID :=
          if isPrivate && !env.perm assigneeUserID repoName then "" else assigneeUserID
        some ("", "", assigneeUserID)
    else none
  match resolved with
  | none => []
  | some (requestedUserID, authorUserID, assigneeUserID) =>
    match env.render "pullRequestNotification" with
    | none => []
    | some message =>
      (if requestedUserID.length > 0 then
        [Msg.dm requestedUserID "custom_git_review_request" message]
      else [])
      ++ postIssueNotification message authorUserID assigneeUserID

/-- Embeds `p.handleIssueNotification`: no mute-list check appears anywhere on
this path either. -/
def handleIssueNotification (env : Env) (ev : IssuesEvent) : List Msg :=
  let author := ev.issue.user.login
  let sender := ev.sender.login
  if author == sender then []
  else
    let repoName := ev.repo.fullName
    let isPrivate := ev.repo.isPrivate
    let resolved : Option (String × String) :=
      if ev.action == actionClosed then
        let authorUserID := env.ghToUserID author
        let authorUserID :=
          if isPrivate && !env.perm authorUserID repoName then "" else authorUserID
        some (authorUserID, "")
      else if ev.action == actionReopened then
        let authorUserID := env.ghToUserID author
        let authorUserID :=
          if isPrivate && !env.perm authorUserID repoName then "" else authorUserID
        some (authorUserID, "")
      else if ev.action == actionAssigned then
        let assignee := ev.assignee.login
        if assignee == sender then none
        else
          let assigneeUserID := env.ghToUserID assignee
          let assigneeUserID :=
            if isPrivate && !env.perm assigneeUserID repoName then "" else assigneeUserID
          some ("", assigneeUserID)
      else none
    match resolved with
    | none => []
    | some (authorUserID, assigneeUserID) =>
      match env.render "issueNotification" with
      | none => []
      | some message => postIssueNotification message authorUserID assigneeUserID

/-- Embeds `p.handlePullRequestReviewNotification`. -/
def handlePullRequestReviewNotification (env : Env) (ev : PullRequestReviewEvent) : List Msg :=
  let author := ev.pullRequest.user.login
  if author == ev.sender.login then []
  else if !(ev.action == actionSubmitted) then []
  else
    let authorUserID := env.ghToUserID author
    if authorUserID == "" then []
    else if ev.repo.isPrivate && !env.perm authorUserID ev.repo.fullName then []
    else
      match env.render "pullRequestReviewNotification" with
      | none => []
      | some message => [.dm authorUserID "custom_git_review" message]

/-- The repository the `handleWebhook` switch extracts from each event. -/
def eventRepo : Event → Repo
  | .pullRequest e => e.repo
  | .issues e => e.repo
  | .issueComment e => e.repo
  | .pullRequestReview e => e.repo
  | .pullRequestReviewComment e => e.repo
  | .push e => ConvertPushEventRepositoryToRepository e.repo
  | .create e => e.repo
  | .delete e => e.repo
  | .star e => e.repo

/-- The event-dispatch part of `p.handleWebhook` (after signature
verification and JSON parsing): each case checks the kill-switch list —
except the star case, which does not — and then, behind the
private-repository configuration gate, runs the kind-specific handlers in
source order.  The returned list is every channel post and direct message
the pipeline dispatches. -/
def processEvent (env : Env) (ev : Event) : List Msg :=
  match ev with
  | .pullRequest e =>
    if IsNotificationOff env e.repo.fullName then []
    else if e.repo.isPrivate && !env.enablePrivateRepo then []
    else
      postPullRequestEvent env e ++ handlePullRequestNotification env e
        ++ handlePRDescriptionMentionNotification env e
  | .issues e =>
    if IsNotificationOff env e.repo.fullName then []
    else if e.repo.isPrivate && !env.enablePrivateRepo then []
    else postIssueEvent env e ++ handleIssueNotification env e
  | .issueComment e =>
    if IsNotificationOff env e.repo.fullName then []
    else if e.repo.isPrivate && !env.enablePrivateRepo then []
    else
      postIssueCommentEvent env e ++ handleCommentMentionNotification env e
        ++ handleCommentAuthorNotification env e
        ++ handleCommentAssigneeNotification env e
  | .pullRequestReview e =>
    if IsNotificationOff env e.repo.fullName then []
    else if e.repo.isPrivate && !env.enablePrivateRepo then []
    else postPullRequestReviewEvent env e ++ handlePullRequestReviewNotification env e
  | .pullRequestReviewComment e =>
    if IsNotificationOff env e.repo.fullName then []
    else if e.repo.isPrivate && !env.enablePrivateRepo then []
    else postPullRequestReviewCommentEvent env e
  | .push e =>
    if IsNotificationOff env (ConvertPushEventRepositoryToRepository e.repo).fullName then []
    else if (ConvertPushEventRepositoryToRepository e.repo).isPrivate
        && !env.enablePrivateRepo then []
    else postPushEvent env e
  | .create e =>
    if IsNotificationOff env e.repo.fullName then []
    else if e.repo.isPrivate && !env.enablePrivateRepo then []
    else postCreateEvent env e
  | .delete e =>
    if IsNotificationOff env e.repo.fullName then []
    else if e.repo.isPrivate && !env.enablePrivateRepo then []
    else postDeleteEvent env e
  | .star e =>
    if e.repo.isPrivate && !env.enablePrivateRepo then []
    else postStarEvent env e

/-- Embeds `p.Subscribe`: validation happens in source order; the store is only
touched by the final `AddSubscription` (an error leaves it unchanged, so
the `Except.ok` payload is the new store). -/
def Subscribe (env : Env) (subs : Subscriptions) (userID owner repo channelID features : String)
    (flags : SubscriptionFlags) : Except String Subscriptions :=
  if owner == "" then .error "invalid repository"
  else
    let owner := goToLower owner
    let repo := goToLower repo
    if !env.checkOrg owner then .error "organization not supported"
    else if flags.excludeOrgMembers && !env.organizationLocked then
      .error "Unable to set --exclude-org-member flag. The GitHub plugin is not locked to a single organization."
    else
      let fetch : Except String Bool :=
        if repo == "" then
          let o := env.orgGet owner
          if !o.1 then
            let u := env.userGet owner
            if !u.1 then .error ("Unknown organization " ++ owner)
            else .ok u.2
          else .ok o.2
        else
          let r := env.repoGet owner repo
          if !r.1 then
            .error ("unknown repository " ++ fullNameFromOwnerAndRepo owner repo)
          else .ok r.2
      match fetch with
      | .error m => .error m
      | .ok errFlag =>
        if errFlag then
          .error ("Encountered an error subscribing to " ++ fullNameFromOwnerAndRepo owner repo)
        else
          .ok (AddSubscription subs (fullNameFromOwnerAndRepo owner repo)
            { channelID := channelID, creatorID := userID, features := features,
              repository := fullNameFromOwnerAndRepo owner repo, flags := flags })

/-- The per-key uniqueness invariant of the subscription store: within one
repository key, no two subscriptions share a channel id. -/
def chanOK (l : List Subscription) : Prop :=
  l.Pairwise (fun a b => a.channelID ≠ b.channelID)

/-- The store-wide invariant: at most one subscription per
(channelID, repository) pair. -/
def StoreInv (store : Subscriptions) : Prop :=
  ∀ k, chanOK (store k)

/-- A baseline environment for concrete witnesses: empty store, no
kill-switch entries, every oracle permissive, rendering succeeds. -/
def baseEnv : Env where
  enablePrivateRepo := true
  excludedRepos := some []
  subsStore := some (fun _ => [])
  perm := fun _ _ => true
  ghToUserID := fun _ => ""
  kvMuted := fun _ => none
  render := fun _ => some "msg"
  sanitize := fun s => s
  getDirectChannel := fun _ => some "dc"
  parseUsernames := fun _ => []
  userInfoOk := fun _ => true
  isOrgMember := fun _ _ => false
  organizationLocked := true
  checkOrg := fun _ => true
  orgGet := fun _ => (true, false)
  userGet := fun _ => (true, false)
  repoGet := fun _ _ => (true, false)
  now := 0

/-- A subscription of channel `chan1` to `owner/repo` with the `stars`
feature. -/
def starSub : Subscription where
  channelID := "chan1"
  creatorID := "creator1"
  features := "stars"
  flags := { excludeOrgMembers := false, excludeOrgRepos := false }
  repository := "owner/repo"

/-- Environment for the C1 counterexample: `owner/repo` is on the
notification-disabled list, yet carries a star subscription. -/
def envC1 : Env :=
  { baseEnv with
    excludedRepos := some ["owner/repo"],
    subsStore := some (fun k => if k = "owner/repo" then [starSub] else []) }

/-- A star event on the kill-switched repository. -/
def evStarC1 : Event :=
  .star { repo := { fullName := "owner/repo", isPrivate := false },
          sender := { login := "alice" } }

/-- An issues event on the kill-switched repository (for the amended C1
witness). -/
def evIssuesC1 : IssuesEvent where
  action := "opened"
  repo := { fullName := "owner/repo", isPrivate := false }
  sender := { login := "alice" }
  issue := { user := { login := "bob" }, labels := [], assignees := [],
             createdAt := 0, htmlURL := "https://github.com/owner/repo/issues/1" }
  label := ""
  assignee := { login := "" }

/-- Environment for C2: `bob` maps to Mattermost user `bobID`, who has
muted `alice`. -/
def envC2 : Env :=
  { baseEnv with
    ghToUserID := fun u => if u = "bob" then "bobID" else if u = "carol" then "carolID" else "",
    kvMuted := fun u => if u = "bobID" then some "alice" else if u = "carolID" then some "alice" else none }

/-- Event where `alice` (muted by `bob`) requests a review from `bob`. -/
def evPrC2 : PullRequestEvent where
  action := "review_requested"
  repo := { fullName := "owner/repo", isPrivate := false }
  sender := { login := "alice" }
  pullRequest := { user := { login := "carol" }, labels := [], body := "",
                   assignee := { login := "" } }
  label := ""
  requestedReviewer := { login := "bob" }

/-- Embeds `alice` (muted by `carol`) comments on an issue authored by `carol`
(for the amended C2 witness: the comment-author path stays silent). -/
def evCommentC2 : IssueCommentEvent where
  action := "created"
  repo := { fullName := "owner/repo", isPrivate := false }
  sender := { login := "alice" }
  issue := { user := { login := "carol" }, labels := [], assignees := [],
             createdAt := 0, htmlURL := "https://github.com/owner/repo/issues/7" }
  commentBody := "hi"

/-- Subscription with a `label:"bug"` filter for the C5 witness. -/
def bugLabelSub : Subscription :=
  { starSub with features := "issues,pulls,label:\"bug\"" }

/-- A pull-request `labeled` event whose applied label is `feature`, on an
object that already carries `bug` (for the C5 witness). -/
def evPrC5 : PullRequestEvent where
  action := "labeled"
  repo := { fullName := "owner/repo", isPrivate := false }
  sender := { login := "alice" }
  pullRequest := { user := { login := "carol" }, labels := ["bug", "feature"], body := "",
                   assignee := { login := "" } }
  label := "feature"
  requestedReviewer := { login := "" }

/-- An issue `labeled` event whose applied label is `feature` (for the C5
witness). -/
def evIssueC5 : IssuesEvent where
  action := "labeled"
  repo := { fullName := "owner/repo", isPrivate := false }
  sender := { login := "alice" }
  issue := { user := { login := "bob" }, labels := ["bug", "feature"], assignees := [],
             createdAt := 0, htmlURL := "https://github.com/owner/repo/issues/2" }
  label := "feature"
  assignee := { login := "" }

/-- A store with one existing subscription under `owner/repo` (for the C6
witness). -/
def storeC6 : Subscriptions :=
  fun k => if k = "owner/repo" then [starSub] else []

/-- The replacement subscription for the C6 witness: same channel, new
feature set. -/
def starSub2 : Subscription :=
  { starSub with features := "pulls,issues" }

/-- An issue `labeled` event arriving 2 seconds after issue creation (for
the C7 witness; `baseEnv.now = 0` nanoseconds). -/
def evIssueC7 : IssuesEvent where
  action := "labeled"
  repo := { fullName := "owner/repo", isPrivate := false }
  sender := { login := "alice" }
  issue := { user := { login := "bob" }, labels := ["bug"], assignees := [],
             createdAt := -2000000000, htmlURL := "https://github.com/owner/repo/issues/3" }
  label := "bug"
  assignee := { login := "" }

/-- Environment for the C8 witness: the installation is not locked to a
single organization. -/
def envC8 : Env :=
  { baseEnv with organizationLocked := false }

/-- Environment for the C9 witness: the stored mute string of user `u` is
the one `handleMuteAdd` writes when muting `malice`. -/
def envC9 : Env :=
  { baseEnv with kvMuted := fun u => if u = "u" then some "malice" else none }

/-- A subscription whose feature string is exactly `pulls_merged` (for the
C10 witness). -/
def mergedSub : Subscription :=
  { starSub with features := "pulls_merged" }

/-- A private repository with one repo-level and one org-level
subscription, whose creators differ (for the C4 witness). -/
def envC4 : Env :=
  { baseEnv with
    subsStore := some (fun k =>
      if k = "owner/repo" then [starSub]
      else if k = "owner/" then [{ starSub with channelID := "chan2", creatorID := "creator2" }]
      else []),
    perm := fun u _ => u = "creator1" }

def repoC4 : Repo where
  fullName := "owner/repo"
  isPrivate := true

theorem listIsPre_iff {α : Type} [BEq α] [LawfulBEq α] (p s : List α) :
    listIsPre p s = true ↔ ∃ t, s = p ++ t := by
  induction p generalizing s with
  | nil => simp [listIsPre]
  | cons a as ih =>
    cases s with
    | nil => simp [listIsPre]
    | cons b bs =>
      simp only [listIsPre, Bool.and_eq_true, beq_iff_eq, ih]
      constructor
      · rintro ⟨rfl, t, rfl⟩
        exact ⟨t, rfl⟩
      · rintro ⟨t, ht⟩
        rw [List.cons_append] at ht
        injection ht with h1 h2
        exact ⟨h1.symm, t, h2⟩

theorem listHasSub_iff {α : Type} [BEq α] [LawfulBEq α] (s sub : List α) :
    listHasSub s sub = true ↔ ∃ l r, s = l ++ sub ++ r := by
  induction s with
  | nil =>
    simp only [listHasSub, listIsPre_iff]
    constructor
    · rintro ⟨t, ht⟩
      exact ⟨[], t, by simpa using ht⟩
    · rintro ⟨l, r, h⟩
      have h2 := h.symm
      simp only [List.append_assoc, List.append_eq_nil] at h2
      exact ⟨[], by simp [h2.2.1]⟩
  | cons c cs ih =>
    simp only [listHasSub, Bool.or_eq_true, listIsPre_iff, ih]
    constructor
    · rintro (⟨t, ht⟩ | ⟨l, r, hr⟩)
      · exact ⟨[], t, by simpa using ht⟩
      · exact ⟨c :: l, r, by simp [hr]⟩
    · rintro ⟨l, r, h⟩
      cases l with
      | nil => exact .inl ⟨r, by simpa using h⟩
      | cons x xs =>
        rw [List.cons_append, List.cons_append] at h
        injection h with h1 h2
        exact .inr ⟨xs, r, h2⟩

theorem runIter_removal (step : Subscription → IterStep) (s : Subscription)
    (h : step s = .skip) (l1 l2 : List Subscription) :
    runIter step (l1 ++ s :: l2) = runIter step (l1 ++ l2) := by
  induction l1 with
  | nil => simp [runIter, h]
  | cons a as ih =>
    rw [List.cons_append, List.cons_append, runIter, runIter]
    cases step a <;> simp [ih]

theorem mem_replaceOrAppend {l : List Subscription} {s x : Subscription}
    (hx : x ∈ replaceOrAppend l s) : x = s ∨ x ∈ l := by
  induction l with
  | nil => simpa [replaceOrAppend] using hx
  | cons a as ih =>
    rw [replaceOrAppend] at hx
    split at hx
    · rcases List.mem_cons.1 hx with h | h
      · exact .inl h
      · exact .inr (List.mem_cons.2 (.inr h))
    · rcases List.mem_cons.1 hx with h | h
      · exact .inr (List.mem_cons.2 (.inl h))
      · rcases ih h with h2 | h2
        · exact .inl h2
        · exact .inr (List.mem_cons.2 (.inr h2))

theorem chanOK_replaceOrAppend {l : List Subscription} (s : Subscription)
    (h : chanOK l) : chanOK (replaceOrAppend l s) := by
  induction l with
  | nil => simp [replaceOrAppend, chanOK]
  | cons a as ih =>
    rw [chanOK, List.pairwise_cons] at h
    rw [replaceOrAppend]
    split
    · rename_i hbeq
      rw [chanOK, List.pairwise_cons]
      refine ⟨fun y hy => ?_, h.2⟩
      have hne := h.1 y hy
      rwa [beq_iff_eq.1 hbeq] at hne
    · rename_i hbeq
      rw [chanOK, List.pairwise_cons]
      refine ⟨fun y hy => ?_, ih h.2⟩
      rcases mem_replaceOrAppend hy with rfl | hmem
      · intro hc
        exact hbeq (beq_iff_eq.2 hc)
      · exact h.1 y hmem

theorem filter_replaceOrAppend {l : List Subscription} (s : Subscription)
    (h : chanOK l) :
    (replaceOrAppend l s).filter (fun x => x.channelID == s.channelID) = [s] := by
  induction l with
  | nil => simp [replaceOrAppend, List.filter]
  | cons a as ih =>
    rw [chanOK, List.pairwise_cons] at h
    rw [replaceOrAppend]
    split
    · rename_i hbeq
      rw [List.filter_cons]
      have htail : as.filter (fun x => x.channelID == s.channelID) = [] := by
        refine List.filter_eq_nil_iff.2 fun y hy => ?_
        have hne := h.1 y hy
        rw [beq_iff_eq.1 hbeq] at hne
        simp only [beq_iff_eq]
        exact fun hc => hne hc.symm
      simp [htail]
    · rename_i hbeq
      rw [List.filter_cons]
      have hfalse : (a.channelID == s.channelID) = false := by
        rw [Bool.eq_false_iff]
        exact hbeq
      simp only [hfalse, if_neg]
      simpa using ih h.2

theorem length_replaceOrAppend {l : List Subscription} (s : Subscription)
    (h : l.any (fun x => x.channelID == s.channelID) = true) :
    (replaceOrAppend l s).length = l.length := by
  induction l with
  | nil => simp at h
  | cons a as ih =>
    rw [replaceOrAppend]
    split
    · simp
    · rename_i hbeq
      have h2 : as.any (fun x => x.channelID == s.channelID) = true := by
        simp only [List.any_cons, Bool.or_eq_true] at h
        rcases h with h1 | h1
        · exact absurd h1 hbeq
        · exact h1
      simp [ih h2]

/-- Claim C1, counterexample: the claim states that for every inbound event
of any of the nine kinds whose repository is on the notification-disabled
list, no message is dispatched.  This is false for star events: in
`handleWebhook` the `StarEvent` case is the only one with no
`IsNotificationOff` check, so a star event on a kill-switched repository
with a matching `stars` subscription still dispatches a channel message. -/
theorem C1_star_skips_killswitch :
    IsNotificationOff envC1 "owner/repo" = true ∧
    processEvent envC1 evStarC1 = [Msg.channel "chan1" "custom_git_star" "msg"] := by
  constructor <;> decide

/-- Claim C1, amended: for every inbound event of the eight kinds other
than star whose repository full name is on the notification-disabled list,
the webhook pipeline dispatches no channel message and no direct message
(the kill-switch is consulted before the private-repository gate and before
any fan-out or actor notification; star events skip the check). -/
theorem C1_killswitch_amended (env : Env) (ev : Event)
    (hstar : ∀ e, ev ≠ Event.star e)
    (hoff : IsNotificationOff env (eventRepo ev).fullName = true) :
    processEvent env ev = [] := by
  cases ev <;>
    first
      | exact absurd rfl (hstar _)
      | (rw [eventRepo] at hoff; simp [processEvent, hoff])

/-- Witness for C1: a concrete issues event on a kill-switched repository
that carries a subscription produces no message. -/
theorem C1_killswitch_amended_witness :
    IsNotificationOff envC1 (eventRepo (Event.issues evIssuesC1)).fullName = true ∧
    processEvent envC1 (Event.issues evIssuesC1) = [] :=
  ⟨by decide,
   C1_killswitch_amended envC1 (Event.issues evIssuesC1)
     (fun e h => Event.noConfusion h) (by decide)⟩

/-- Claim C2, counterexample: the claim states the mute list suppresses
direct notifications in all three actor-notification paths, including the
review-request path.  It is false there: `handlePullRequestNotification`
never consults `senderMutedByReceiver`, so a review request from a sender
the receiver has muted still produces a direct message (here `bob` muted
`alice`, yet the `review_requested` event from `alice` DMs `bob`). -/
theorem C2_mute_not_checked_counterexample :
    senderMutedByReceiver envC2 (envC2.ghToUserID "bob") "alice" = true ∧
    processEvent envC2 (Event.pullRequest evPrC2) =
      [Msg.dm "bobID" "custom_git_review_request" "msg"] := by
  constructor <;> decide

theorem author_notification_cases (env : Env) (ev : IssueCommentEvent) :
    handleCommentAuthorNotification env ev = [] ∨
    (senderMutedByReceiver env (env.ghToUserID ev.issue.user.login) ev.sender.login = false ∧
     ∃ m, handleCommentAuthorNotification env ev =
       [Msg.dm (env.ghToUserID ev.issue.user.login) "custom_git_author" m]) := by
  simp only [handleCommentAuthorNotification]
  repeat' split
  all_goals try exact .inl rfl
  refine .inr ⟨?_, _, rfl⟩
  simp only [Bool.not_eq_true] at *
  assumption

theorem assigneeIter_some (env : Env) (ev : IssueCommentEvent) (t : String)
    (a : User) (msg : Msg) (h : assigneeIter env ev t a = some msg) :
    ∃ m, msg = Msg.dm (env.ghToUserID a.login) "custom_git_assignee" m ∧
      senderMutedByReceiver env (env.ghToUserID a.login) ev.sender.login = false := by
  simp only [assigneeIter] at h
  repeat' split at h
  any_goals exact Option.noConfusion h
  cases h
  refine ⟨_, rfl, ?_⟩
  simp only [Bool.not_eq_true] at *
  assumption

/-- Claim C2, amended: the mute list is honored only on the issue-comment
author and issue-comment assignee notification paths: for every receiver
who has muted the sender of a comment event, those two handlers emit no
direct message to that receiver.  (The mention path and the pull-request /
issue state-change and review-request paths perform no mute check.) -/
theorem C2_mute_amended (env : Env) (ev : IssueCommentEvent) (uid : String)
    (hmuted : senderMutedByReceiver env uid ev.sender.login = true) :
    (∀ t m, Msg.dm uid t m ∉ handleCommentAuthorNotification env ev) ∧
    (∀ t m, Msg.dm uid t m ∉ handleCommentAssigneeNotification env ev) := by
  constructor
  · intro t m hmem
    rcases author_notification_cases env ev with hnil | ⟨hfree, m2, heq⟩
    · rw [hnil] at hmem
      simp at hmem
    · rw [heq] at hmem
      simp only [List.mem_singleton, Msg.dm.injEq] at hmem
      rw [hmem.1] at hmuted
      rw [hfree] at hmuted
      exact absurd hmuted (by decide)
  · intro t m hmem
    simp only [handleCommentAssigneeNotification] at hmem
    split at hmem
    · simp at hmem
    · split at hmem
      · simp at hmem
      · rcases List.mem_filterMap.1 hmem with ⟨a, _, ha⟩
        rcases assigneeIter_some env ev _ a _ ha with ⟨m2, heq, hfree⟩
        injection heq with h1 h2 h3
        rw [h1] at hmuted
        rw [hfree] at hmuted
        exact absurd hmuted (by decide)

/-- Witness for C2: `carol` has muted `alice`; a comment by `alice` on an
issue authored by `carol` yields no author or assignee DM to `carol`. -/
theorem C2_mute_amended_witness :
    senderMutedByReceiver envC2 "carolID" "alice" = true ∧
    Msg.dm "carolID" "custom_git_author" "msg" ∉ handleCommentAuthorNotification envC2 evCommentC2 ∧
    Msg.dm "carolID" "custom_git_assignee" "msg" ∉ handleCommentAssigneeNotification envC2 evCommentC2 :=
  ⟨by decide,
   (C2_mute_amended envC2 evCommentC2 "carolID" (by decide)).1 _ _,
   (C2_mute_amended envC2 evCommentC2 "carolID" (by decide)).2 _ _⟩

/-- Claim C3: `verifyWebhookSignature` returns `(false, nil)` whenever the
header length is not 45 or the literal `sha1=` prefix is missing; returns a
hard error when the 40-byte suffix fails hex decoding; and otherwise
returns true exactly when the decoded digest equals the HMAC-SHA1 of the
raw body under the secret, so a body whose digest differs yields false and
the untampered body yields true. -/
theorem C3_verify_signature (hmacSha1 : List Nat → List Nat → List Nat)
    (secret signature body : List Nat) :
    (¬(signature.length = 45 ∧ listIsPre signaturePrefixBytes signature = true) →
       verifyWebhookSignature hmacSha1 secret signature body = .ok false) ∧
    (signature.length = 45 → listIsPre signaturePrefixBytes signature = true →
       (hexDecodePairs (signature.drop 5) = none →
          verifyWebhookSignature hmacSha1 secret signature body = .error ()) ∧
       (∀ d, hexDecodePairs (signature.drop 5) = some d →
          (verifyWebhookSignature hmacSha1 secret signature body = .ok true ↔
             hmacSha1 secret body = d) ∧
          (∀ body2, hmacSha1 secret body2 ≠ d →
             verifyWebhookSignature hmacSha1 secret signature body2 = .ok false))) := by
  constructor
  · intro h
    unfold verifyWebhookSignature
    cases hc : (signature.length == 45 && listIsPre signaturePrefixBytes signature) with
    | false => simp
    | true =>
      exfalso
      rw [Bool.and_eq_true, beq_iff_eq] at hc
      exact h ⟨hc.1, hc.2⟩
  · intro hlen hpre
    have hc : (signature.length == 45 && listIsPre signaturePrefixBytes signature) = true := by
      rw [Bool.and_eq_true, beq_iff_eq]
      exact ⟨hlen, hpre⟩
    constructor
    · intro hdec
      simp [verifyWebhookSignature, hc, hdec]
    · intro d hdec
      constructor
      · simp [verifyWebhookSignature, hc, hdec, beq_iff_eq]
      · intro body2 hne
        simp [verifyWebhookSignature, hc, hdec]
        exact hne

/-- Witness for C3: concrete runs of all four branches of the verifier
(valid match, tampered body, short header, invalid hex digit). -/
theorem C3_verify_signature_witness :
    verifyWebhookSignature (fun _ b => b) []
      (signaturePrefixBytes ++ List.replicate 40 48) (List.replicate 20 0) = .ok true ∧
    verifyWebhookSignature (fun _ b => b) []
      (signaturePrefixBytes ++ List.replicate 40 48) [1] = .ok false ∧
    verifyWebhookSignature (fun _ b => b) [] [115, 104, 97, 49, 61]
      (List.replicate 20 0) = .ok false ∧
    verifyWebhookSignature (fun _ b => b) []
      (signaturePrefixBytes ++ List.replicate 40 103) (List.replicate 20 0) = .error () := by
  refine ⟨?_, ?_, ?_, ?_⟩
  · exact ((((C3_verify_signature (fun _ b => b) []
      (signaturePrefixBytes ++ List.replicate 40 48) (List.replicate 20 0)).2
      (by decide) (by decide)).2 (List.replicate 20 0) (by decide)).1).2 (by decide)
  · exact ((((C3_verify_signature (fun _ b => b) []
      (signaturePrefixBytes ++ List.replicate 40 48) (List.replicate 20 0)).2
      (by decide) (by decide)).2 (List.replicate 20 0) (by decide)).2) [1] (by decide)
  · exact (C3_verify_signature (fun _ b => b) [] [115, 104, 97, 49, 61]
      (List.replicate 20 0)).1 (by decide)
  · exact (((C3_verify_signature (fun _ b => b) []
      (signaturePrefixBytes ++ List.replicate 40 103) (List.replicate 20 0)).2
      (by decide) (by decide)).1) (by decide)

/-- Claim C4: for every private repository, every subscription (repo-level
or organization-level) kept by `GetSubscribedChannelsForRepository` has a
creator that the permission oracle approves for that repository; a creator
who cannot see it is dropped silently (the function returns a plain list,
never an error). -/
theorem C4_private_repo_permission (env : Env) (repo : Repo) (sub : Subscription)
    (hpriv : repo.isPrivate = true)
    (hmem : sub ∈ GetSubscribedChannelsForRepository env repo) :
    env.perm sub.creatorID (goToLower repo.fullName) = true := by
  simp only [GetSubscribedChannelsForRepository] at hmem
  split at hmem
  · simp at hmem
  · split at hmem
    · simp at hmem
    · have hp := (List.mem_filter.1 hmem).2
      rw [hpriv] at hp
      simpa using hp

/-- Witness for C4: on a private repository with a repo-level and an
org-level subscription, the sole surviving subscription is the one whose
creator the oracle approves. -/
theorem C4_private_repo_permission_witness :
    starSub ∈ GetSubscribedChannelsForRepository envC4 repoC4 ∧
    envC4.perm starSub.creatorID (goToLower repoC4.fullName) = true :=
  ⟨by decide, C4_private_repo_permission envC4 repoC4 starSub (by decide) (by decide)⟩

theorem prIter_labeled_skip (env : Env) (sub : Subscription) (_hL : sub.Label ≠ "")
    (ev : PullRequestEvent) (labels : List String) (newPR closedPR : String)
    (ha : ev.action = actionLabeled) (hdiff : ev.label ≠ sub.Label) :
    prIter env ev labels newPR closedPR sub = .skip := by
  have hbeq : (ev.action == actionLabeled) = true := beq_iff_eq.2 ha
  have hlbeq : (sub.Label == ev.label) = false :=
    beq_eq_false_iff_ne.2 fun hc => hdiff hc.symm
  simp only [prIter, hbeq, hlbeq]
  repeat' split
  all_goals simp_all

theorem prIter_labeled_send (env : Env) (sub : Subscription)
    (ev : PullRequestEvent) (labels : List String) (newPR closedPR : String) (m : Msg)
    (ha : ev.action = actionLabeled)
    (hsend : prIter env ev labels newPR closedPR sub = .send m) :
    ev.label = sub.Label := by
  have hbeq : (ev.action == actionLabeled) = true := beq_iff_eq.2 ha
  by_cases hlbeq : sub.Label = ev.label
  · exact hlbeq.symm
  · exfalso
    have : (sub.Label == ev.label) = false := beq_eq_false_iff_ne.2 hlbeq
    simp only [prIter, hbeq, this] at hsend
    repeat' split at hsend
    all_goals simp_all

theorem issueIter_labeled_skip (env : Env) (sub : Subscription) (_hL : sub.Label ≠ "")
    (ev : IssuesEvent) (message : String) (labels : List String)
    (ha : ev.action = actionLabeled) (hdiff : ev.label ≠ sub.Label) :
    issueIter env ev message labels sub = .skip := by
  have hbeq : (ev.action == actionLabeled) = true := beq_iff_eq.2 ha
  have hlbeq : (sub.Label == ev.label) = false :=
    beq_eq_false_iff_ne.2 fun hc => hdiff hc.symm
  simp only [issueIter, hbeq, hlbeq]
  repeat' split
  all_goals simp_all

theorem issueIter_labeled_send (env : Env) (sub : Subscription)
    (ev : IssuesEvent) (message : String) (labels : List String) (m : Msg)
    (ha : ev.action = actionLabeled)
    (hsend : issueIter env ev message labels sub = .send m) :
    ev.label = sub.Label := by
  have hbeq : (ev.action == actionLabeled) = true := beq_iff_eq.2 ha
  by_cases hlbeq : sub.Label = ev.label
  · exact hlbeq.symm
  · exfalso
    have : (sub.Label == ev.label) = false := beq_eq_false_iff_ne.2 hlbeq
    simp only [issueIter, hbeq, this] at hsend
    repeat' split at hsend
    all_goals simp_all

/-- Claim C5: for `labeled` pull-request and issue events and a
subscription carrying a label filter, the fan-out iteration posts to that
subscription only when the label the event itself applies equals the
filter; when a different label is applied the iteration skips — and hence
the whole fan-out output is unchanged if that subscription is removed —
even when the current label set of the object contains the filter label. -/
theorem C5_label_filter (env : Env) (sub : Subscription) (hL : sub.Label ≠ "") :
    (∀ (ev : PullRequestEvent) (labels : List String) (newPR closedPR : String),
        ev.action = actionLabeled → ev.label ≠ sub.Label →
        prIter env ev labels newPR closedPR sub = .skip) ∧
    (∀ (ev : PullRequestEvent) (labels : List String) (newPR closedPR : String) (m : Msg),
        ev.action = actionLabeled →
        prIter env ev labels newPR closedPR sub = .send m → ev.label = sub.Label) ∧
    (∀ (ev : PullRequestEvent) (labels : List String) (newPR closedPR : String)
        (l1 l2 : List Subscription),
        ev.action = actionLabeled → ev.label ≠ sub.Label →
        runIter (prIter env ev labels newPR closedPR) (l1 ++ sub :: l2)
          = runIter (prIter env ev labels newPR closedPR) (l1 ++ l2)) ∧
    (∀ (ev : IssuesEvent) (message : String) (labels : List String),
        ev.action = actionLabeled → ev.label ≠ sub.Label →
        issueIter env ev message labels sub = .skip) ∧
    (∀ (ev : IssuesEvent) (message : String) (labels : List String) (m : Msg),
        ev.action = actionLabeled →
        issueIter env ev message labels sub = .send m → ev.label = sub.Label) ∧
    (∀ (ev : IssuesEvent) (message : String) (labels : List String)
        (l1 l2 : List Subscription),
        ev.action = actionLabeled → ev.label ≠ sub.Label →
        runIter (issueIter env ev message labels) (l1 ++ sub :: l2)
          = runIter (issueIter env ev message labels) (l1 ++ l2)) := by
  refine ⟨?_, ?_, ?_, ?_, ?_, ?_⟩
  · exact fun ev labels a b ha hd => prIter_labeled_skip env sub hL ev labels a b ha hd
  · exact fun ev labels a b m ha hs => prIter_labeled_send env sub ev labels a b m ha hs
  · exact fun ev labels a b l1 l2 ha hd =>
      runIter_removal _ sub (prIter_labeled_skip env sub hL ev labels a b ha hd) l1 l2
  · exact fun ev msg labels ha hd => issueIter_labeled_skip env sub hL ev msg labels ha hd
  · exact fun ev msg labels m ha hs => issueIter_labeled_send env sub ev msg labels m ha hs
  · exact fun ev msg labels l1 l2 ha hd =>
      runIter_removal _ sub (issueIter_labeled_skip env sub hL ev msg labels ha hd) l1 l2

/-- Witness for C5: a `label:\"bug\"` subscription skips a `labeled`
event that applies `feature` although the object already carries `bug`. -/
theorem C5_label_filter_witness :
    bugLabelSub.Label = "bug" ∧
    prIter baseEnv evPrC5 evPrC5.pullRequest.labels "a" "b" bugLabelSub = .skip ∧
    issueIter baseEnv evIssueC5 "m" evIssueC5.issue.labels bugLabelSub = .skip :=
  ⟨by decide,
   (C5_label_filter baseEnv bugLabelSub (by decide)).1 evPrC5
     evPrC5.pullRequest.labels "a" "b" rfl (by decide),
   (C5_label_filter baseEnv bugLabelSub (by decide)).2.2.2.1 evIssueC5
     "m" evIssueC5.issue.labels rfl (by decide)⟩

/-- Claim C6: on any store satisfying the at-most-one-subscription-per
(channelID, repository) invariant, `AddSubscription` preserves the
invariant, adding for an existing (channel, repo) pair replaces in place
(the list length is unchanged, never appended), and two successive adds for
the same pair leave exactly one subscription for it — the second one. -/
theorem C6_add_subscription (store : Subscriptions) (hinv : StoreInv store)
    (repo : String) (sub : Subscription) :
    StoreInv (AddSubscription store repo sub) ∧
    (∀ sub2 : Subscription, sub2.channelID = sub.channelID →
       ((AddSubscription (AddSubscription store repo sub) repo sub2) repo).filter
         (fun x => x.channelID == sub.channelID) = [sub2]) ∧
    ((store repo).any (fun x => x.channelID == sub.channelID) = true →
       ((AddSubscription store repo sub) repo).length = (store repo).length) := by
  refine ⟨?_, ?_, ?_⟩
  · intro k
    unfold AddSubscription
    by_cases hk : k = repo
    · rw [if_pos hk, hk]
      exact chanOK_replaceOrAppend sub (hinv repo)
    · rw [if_neg hk]
      exact hinv k
  · intro sub2 h2
    have hOK : chanOK (replaceOrAppend (store repo) sub) :=
      chanOK_replaceOrAppend sub (hinv repo)
    unfold AddSubscription
    rw [if_pos rfl, if_pos rfl]
    rw [← h2]
    exact filter_replaceOrAppend sub2 hOK
  · intro hany
    unfold AddSubscription
    rw [if_pos rfl]
    exact length_replaceOrAppend sub hany

/-- Witness for C6: subscribing `chan1` to `owner/repo` twice with
different feature sets leaves exactly the second subscription. -/
theorem C6_add_subscription_witness :
    StoreInv storeC6 ∧
    ((AddSubscription (AddSubscription storeC6 "owner/repo" starSub) "owner/repo" starSub2)
        "owner/repo").filter (fun x => x.channelID == starSub.channelID) = [starSub2] := by
  have hinv : StoreInv storeC6 := by
    intro k
    unfold storeC6
    by_cases hk : k = "owner/repo" <;> simp [hk, chanOK]
  exact ⟨hinv, (C6_add_subscription storeC6 hinv "owner/repo" starSub).2.1 starSub2 rfl⟩

/-- Claim C7: an issue `labeled` event processed less than 4 seconds after
the issue was created produces zero messages: the channel fan-out is
suppressed by the anti-duplication guard, and the actor-notification path
produces nothing for the `labeled` action, so the whole pipeline emits
nothing. -/
theorem C7_labeled_within_4s (env : Env) (ev : IssuesEvent)
    (haction : ev.action = actionLabeled)
    (htime : env.now - ev.issue.createdAt < 4000000000) :
    postIssueEvent env ev = [] ∧ handleIssueNotification env ev = [] ∧
    processEvent env (.issues ev) = [] := by
  have hbeq : (ev.action == actionLabeled) = true := beq_iff_eq.2 haction
  have hpost : postIssueEvent env ev = [] := by
    simp [postIssueEvent, hbeq, htime]
  have hnotif : handleIssueNotification env ev = [] := by
    have h1 : (ev.action == actionClosed) = false := by
      rw [haction]; decide
    have h2 : (ev.action == actionReopened) = false := by
      rw [haction]; decide
    have h3 : (ev.action == actionAssigned) = false := by
      rw [haction]; decide
    simp only [handleIssueNotification, h1, h2, h3]
    repeat' split
    all_goals simp_all
  refine ⟨hpost, hnotif, ?_⟩
  simp only [processEvent]
  split
  · rfl
  · split
    · rfl
    · rw [hpost, hnotif]
      rfl

/-- Witness for C7: a labeled event arriving 2 seconds after issue
creation yields no message at all. -/
theorem C7_labeled_within_4s_witness :
    processEvent baseEnv (.issues evIssueC7) = [] :=
  (C7_labeled_within_4s baseEnv evIssueC7 rfl (by decide)).2.2

/-- Claim C8: every `Subscribe` call whose flags include
`excludeOrgMembers` while the installation is not locked to a single
organization returns an error (and therefore adds nothing to the store:
the store is only returned on the success path). -/
theorem C8_exclude_flag_requires_lock (env : Env) (subs : Subscriptions)
    (userID owner repo channelID features : String) (flags : SubscriptionFlags)
    (hflag : flags.excludeOrgMembers = true)
    (hlock : env.organizationLocked = false) :
    ∃ e, Subscribe env subs userID owner repo channelID features flags = .error e := by
  simp only [Subscribe]
  split
  · exact ⟨_, rfl⟩
  · split
    · exact ⟨_, rfl⟩
    · have hcond : (flags.excludeOrgMembers && !env.organizationLocked) = true := by
        rw [hflag, hlock]
        rfl
      rw [if_pos hcond]
      exact ⟨_, rfl⟩

/-- Witness for C8: a concrete subscribe with the flag set and the lock
absent errors out. -/
theorem C8_exclude_flag_requires_lock_witness :
    ∃ e, Subscribe envC8 storeC6 "user" "Owner" "Repo" "chan" "pulls"
      { excludeOrgMembers := true, excludeOrgRepos := false } = .error e :=
  C8_exclude_flag_requires_lock envC8 storeC6 "user" "Owner" "Repo" "chan" "pulls"
    { excludeOrgMembers := true, excludeOrgRepos := false } rfl rfl

/-- Claim C9: the mute check is substring-based, not exact-match: whenever
the sender username occurs as a contiguous substring of the stored
comma-joined mute string, `senderMutedByReceiver` returns true (so `alice`
counts as muted when `malice` is on the list), and it returns false
(fail-open) when the KV read of the mute list errors, for any non-empty
sender. -/
theorem C9_mute_substring (env : Env) (uid sender : String) :
    (∀ stored, env.kvMuted uid = some stored →
       (∃ l r, stored.data = l ++ sender.data ++ r) →
       senderMutedByReceiver env uid sender = true) ∧
    (env.kvMuted uid = none → sender.data ≠ [] →
       senderMutedByReceiver env uid sender = false) := by
  constructor
  · intro stored hst hocc
    simp only [senderMutedByReceiver, goContains, hst, Option.getD_some]
    exact (listHasSub_iff _ _).2 hocc
  · intro hst hne
    simp only [senderMutedByReceiver, goContains, hst, Option.getD_none]
    cases hs : sender.data with
    | nil => exact absurd hs hne
    | cons a as => rfl

/-- Witness for C9: after `handleMuteAdd` stores `malice`, the sender
`alice` is reported muted; with a failing KV read the sender is not. -/
theorem C9_mute_substring_witness :
    handleMuteAdd none "malice" = some "malice" ∧
    senderMutedByReceiver envC9 "u" "alice" = true ∧
    senderMutedByReceiver envC9 "v" "alice" = false :=
  ⟨by decide,
   (C9_mute_substring envC9 "u" "alice").1 "malice" (by decide)
     ⟨['m'], [], by decide⟩,
   (C9_mute_substring envC9 "v" "alice").2 (by decide) (by decide)⟩

/-- Claim C10: feature predicates are substring-based over the
comma-joined feature string, so every subscription whose features contain
`pulls_merged` also satisfies `Pulls()`; the two gates are separated only
by the extra `action = closed` check in the pull-request fan-out, which
makes the iteration skip a `pulls_merged` subscription on any non-closed
action. -/
theorem C10_pulls_substring_overlap (s : Subscription)
    (h : s.PullsMerged = true) :
    s.Pulls = true ∧
    (∀ (env : Env) (ev : PullRequestEvent) (labels : List String) (newPR closedPR : String),
       ev.action ≠ actionClosed →
       prIter env ev labels newPR closedPR s = .skip) := by
  have hp : s.Pulls = true := by
    simp only [Subscription.PullsMerged, goContains] at h
    simp only [Subscription.Pulls, goContains, featurePulls]
    rcases (listHasSub_iff _ _).1 h with ⟨l, r, hr⟩
    refine (listHasSub_iff _ _).2 ⟨l, "_merged".data ++ r, ?_⟩
    rw [hr]
    simp only [List.append_assoc]
    congr 1
  refine ⟨hp, ?_⟩
  intro env ev labels newPR closedPR hne
  have h1 : (!s.Pulls && !s.PullsMerged) = false := by
    rw [h]
    simp
  have h2 : (s.PullsMerged && !(ev.action == actionClosed)) = true := by
    rw [h, beq_eq_false_iff_ne.2 hne]
    rfl
  simp only [prIter, h1, h2]
  rfl

/-- Witness for C10: a subscription with features `pulls_merged` has
`Pulls() = true` and is skipped by the fan-out on a non-closed action. -/
theorem C10_pulls_substring_overlap_witness :
    mergedSub.Pulls = true ∧
    prIter baseEnv evPrC2 [] "a" "b" mergedSub = .skip :=
  ⟨(C10_pulls_substring_overlap mergedSub (by decide)).1,
   (C10_pulls_substring_overlap mergedSub (by decide)).2 baseEnv evPrC2 [] "a" "b"
     (by decide)⟩
